import Mathlib

/-!
Verification of the Melody_converter repository (src/Function_gen.py and
src/melody_converter.py) against its natural-language specification.

The two Python modules are shallowly embedded below:
  * Python exceptions become an explicit `PyErr` sum type; code that can
    raise returns `Except PyErr _` (or threads state beside the error so
    that side effects performed before the raise stay observable).
  * Python `int(...)` / `float(...)` string parsing is modelled by
    `pyInt` / `pyFloat` over ASCII decimal forms (Unicode digits and the
    `inf`/`nan` forms of `float` are outside the model); numeric values
    are exact `Int`/`Rat` rather than IEEE floats.
  * SCPI traffic is recorded as an explicit trace of structured events;
    each event constructor documents the literal command string the
    source writes.
-/

/-- Python exception values that the embedded code can raise. -/
inductive PyErr where
  | valueError : String → PyErr
  | indexError : PyErr
  | keyError : String → PyErr
  | invalidSession : PyErr
deriving DecidableEq

/-- Numeric value of a list of ASCII digits, most significant first. -/
def digitsVal (ds : List Char) : Nat :=
  ds.foldl (fun a c => a * 10 + (c.toNat - 48)) 0

/-- Strip leading and trailing whitespace from a character list (model
of Python `str.strip()` with no argument, restricted to ASCII
whitespace). -/
def stripChars (cs : List Char) : List Char :=
  ((cs.dropWhile Char.isWhitespace).reverse.dropWhile Char.isWhitespace).reverse

/-- Model of Python `str.strip()` on a string. -/
def pyStrip (s : String) : String :=
  String.mk (stripChars s.toList)

/-- Split a character list on a single-character separator (model of
Python `str.split(sep)` for a one-character `sep`): `split1 a cs` keeps
empty fields and never drops the final empty field. -/
def split1 (a : Char) : List Char → List (List Char)
  | [] => [[]]
  | c :: rest =>
    if c = a then [] :: split1 a rest
    else
      match split1 a rest with
      | [] => [[c]]
      | g :: gs => (c :: g) :: gs

/-- Split a character list on a two-character separator (model of
Python `str.split(sep)` for a two-character `sep` such as `"::"`):
leftmost-first, non-overlapping, keeping empty fields. -/
def split2 (a b : Char) : List Char → List (List Char)
  | [] => [[]]
  | [c] => [[c]]
  | c :: d :: rest =>
    if c = a ∧ d = b then [] :: split2 a b rest
    else
      match split2 a b (d :: rest) with
      | [] => [[c]]
      | g :: gs => (c :: g) :: gs

/-- Model of `resource_name.split("::")`. -/
def pySplitCC (s : String) : List String :=
  (split2 ':' ':' s.toList).map String.mk

/-- Tail of a Python integer literal after its first digit: every
underscore must be immediately followed by a digit (and, by construction
of `pyDigits`, preceded by one). -/
def pyDigitsCore : List Char → Bool
  | [] => true
  | '_' :: c :: rest => c.isDigit && pyDigitsCore rest
  | c :: rest => c.isDigit && pyDigitsCore rest

/-- Digit part of a Python integer literal: nonempty, starts with a digit,
underscores only between digits (as accepted by Python `int`). -/
def pyDigits : List Char → Bool
  | [] => false
  | c :: rest => c.isDigit && pyDigitsCore rest

/-- Model of Python `int(s)` for base-10 strings: strips surrounding
whitespace, accepts one optional sign, then digits with optional single
underscores between them; `none` models the `ValueError` raise. -/
def pyInt (s : String) : Option Int :=
  let cs := stripChars s.toList
  let signAndDigits : Int × List Char :=
    match cs with
    | '+' :: r => (1, r)
    | '-' :: r => (-1, r)
    | r => (1, r)
  if pyDigits signAndDigits.2 then
    some (signAndDigits.1 * (digitsVal (signAndDigits.2.filter (fun c => c ≠ '_')) : Int))
  else
    none

/-- Exponent suffix of a Python float literal, after the `e`/`E`:
`m` is the signed decimal mantissa scaled by `10 ^ fracLen`.  The value
is assembled with integer arithmetic and one final `mkRat`. -/
def pyFloatExp (m : Int) (fracLen : Nat) (r : List Char) : Option Rat :=
  let esignNeg : Bool × List Char :=
    match r with
    | '+' :: r2 => (false, r2)
    | '-' :: r2 => (true, r2)
    | r2 => (false, r2)
  let eds := esignNeg.2.takeWhile Char.isDigit
  let erest := esignNeg.2.dropWhile Char.isDigit
  if eds.isEmpty || !erest.isEmpty then none
  else
    let e := digitsVal eds
    if esignNeg.1 then some (mkRat m (10 ^ (fracLen + e)))
    else some (mkRat (m * (10 : Int) ^ e) (10 ^ fracLen))

/-- Model of Python `float(s)` for finite decimal literals
(`[sign] digits [. digits] [e [sign] digits]`, at least one mantissa
digit): the value is kept as an exact rational, so IEEE rounding and the
`inf`/`nan`/underscore forms are outside the model; `none` models the
`ValueError` raise. -/
def pyFloat (s : String) : Option Rat :=
  let cs := stripChars s.toList
  let signNeg : Bool × List Char :=
    match cs with
    | '+' :: r => (false, r)
    | '-' :: r => (true, r)
    | r => (false, r)
  let intPart := signNeg.2.takeWhile Char.isDigit
  let afterInt := signNeg.2.dropWhile Char.isDigit
  let fracAndRest : List Char × List Char :=
    match afterInt with
    | '.' :: r => (r.takeWhile Char.isDigit, r.dropWhile Char.isDigit)
    | _ => ([], afterInt)
  let fracPart := fracAndRest.1
  let afterFrac := fracAndRest.2
  if intPart.isEmpty && fracPart.isEmpty then none
  else
    let mval : Int := (digitsVal intPart * 10 ^ fracPart.length + digitsVal fracPart : Nat)
    let m : Int := if signNeg.1 then -mval else mval
    match afterFrac with
    | [] => some (mkRat m (10 ^ fracPart.length))
    | 'e' :: r => pyFloatExp m fracPart.length r
    | 'E' :: r => pyFloatExp m fracPart.length r
    | _ => none

/-- Model of Python `int(x)` on a number: truncation toward zero, which
for a rational `num/den` (with `den > 0`) is T-division of the numerator
by the denominator. -/
def pyTrunc (q : Rat) : Int :=
  Int.tdiv q.num (q.den : Int)

instance {ε α : Type} [DecidableEq ε] [DecidableEq α] : DecidableEq (Except ε α) := fun x y =>
  match x, y with
  | Except.error a, Except.error b =>
    if h : a = b then isTrue (by rw [h]) else isFalse (fun hh => h (by cases hh; rfl))
  | Except.error _, Except.ok _ => isFalse (fun hh => by cases hh)
  | Except.ok _, Except.error _ => isFalse (fun hh => by cases hh)
  | Except.ok a, Except.ok b =>
    if h : a = b then isTrue (by rw [h]) else isFalse (fun hh => h (by cases hh; rfl))

/-- Model of Python `s.startswith("P")` on a character list. -/
def startsWithP : List Char → Bool
  | 'P' :: _ => true
  | _ => false

namespace Fgen

/-! Embedding of `src/Function_gen.py`. -/

/-- SCPI command written by `Function_Gen` through `self.visa.write`;
each constructor documents the literal f-string of the source:
`volt v` is `f"VOLT {vpp}"`, `voltOffs v` is `f"VOLT:OFFS {offset}"`,
`pulsWidt v` is `f"FUNC:PULS:WIDT {pulse_width}"`,
`sourFreq f` is `f"SOUR1:FREQ {freq}"`,
`outp1 true` is `"OUTP1 ON"` and `outp1 false` is `"OUTP1 OFF"`. -/
inductive Cmd where
  | volt : Rat → Cmd
  | voltOffs : Rat → Cmd
  | pulsWidt : Rat → Cmd
  | sourFreq : Int → Cmd
  | outp1 : Bool → Cmd
deriving DecidableEq

/-- One observable interaction of `Function_Gen` with the instrument:
a command written, or the `SOUR1:FREQ?` query together with the response
string the instrument returned. -/
inductive Ev where
  | write : Cmd → Ev
  | freqQuery : String → Ev
deriving DecidableEq

/-- State of `Function_Gen` (src/Function_gen.py, class `Function_Gen`):
the tracked instance attributes `freq`, `volt`, `width`, `offset`,
`output`, plus the trace of commands it has sent through the
connection. -/
structure FG where
  freq : Int
  volt : Rat
  width : Rat
  offset : Rat
  output : Bool
  trace : List Ev
deriving DecidableEq

/-- Append one written command to the trace (a `self.visa.write(...)`
call on an open connection). -/
def FG.send (g : FG) (c : Cmd) : FG :=
  { g with trace := g.trace ++ [Ev.write c] }

/-- Method `Function_Gen.configure_vpp`: a single write of
`f"VOLT {vpp}"`; no tracked attribute is assigned. -/
def FG.configure_vpp (g : FG) (vpp : Rat) : FG :=
  g.send (Cmd.volt vpp)

/-- Method `Function_Gen.configure_offset`: a single write of
`f"VOLT:OFFS {offset}"`; no tracked attribute is assigned. -/
def FG.configure_offset (g : FG) (offset : Rat) : FG :=
  g.send (Cmd.voltOffs offset)

/-- Method `Function_Gen.configure_pulse_width`: a single write of
`f"FUNC:PULS:WIDT {pulse_width}"`; no tracked attribute is assigned. -/
def FG.configure_pulse_width (g : FG) (pulse_width : Rat) : FG :=
  g.send (Cmd.pulsWidt pulse_width)

/-- Method `Function_Gen.configure_freq`: writes `f"SOUR1:FREQ {freq}"`
and then assigns `self.freq = freq`. -/
def FG.configure_freq (g : FG) (freq : Int) : FG :=
  { g.send (Cmd.sourFreq freq) with freq := freq }

/-- Method `Function_Gen._set_outp(output, soft)`: the soft branch writes
`SOUR1:FREQ {self.freq}` when enabling or `SOUR1:FREQ 1` when disabling
and then writes `OUTP1 ON`; the hard branch writes `OUTP1 ON`/`OUTP1 OFF`;
both branches finish with `self.output = output`.  Note the soft branch
sends the frequency with a raw write, so `self.freq` is not changed. -/
def FG.set_outp (g : FG) (output : Bool) (soft : Bool) : FG :=
  let g2 :=
    if soft then
      (g.send (Cmd.sourFreq (if output then g.freq else 1))).send (Cmd.outp1 true)
    else
      g.send (Cmd.outp1 output)
  { g2 with output := output }

/-- Method `Function_Gen.stop`: `self._set_outp(False, soft=False)`. -/
def FG.stop (g : FG) : FG :=
  g.set_outp false false

/-- Constructor `Function_Gen.__init__(visa_instance, vpp, offset,
pulse_width)`.  `freqResp` is the string the instrument returns to the
final `SOUR1:FREQ?` query; `self.freq = int(float(...))` of it raises
`ValueError` when it is not a decimal literal.  The starting record is a
dummy: before any attribute is read the constructor has assigned it
(`_set_outp(False, soft=False)` reads no tracked attribute). -/
def FG.init (vpp offset pulse_width : Rat) (freqResp : String) : Except PyErr FG :=
  let g : FG := { freq := 0, volt := 0, width := 0, offset := 0, output := false, trace := [] }
  let g := g.set_outp false false
  let g := ({ g with freq := 1000 } : FG).configure_freq 1000
  let g := ({ g with volt := vpp } : FG).configure_vpp vpp
  let g := ({ g with width := pulse_width } : FG).configure_pulse_width pulse_width
  let g := ({ g with offset := offset } : FG).configure_offset offset
  let g := { g with trace := g.trace ++ [Ev.freqQuery freqResp] }
  match pyFloat freqResp with
  | none => Except.error (PyErr.valueError "could not convert string to float")
  | some q => Except.ok { g with freq := pyTrunc q }

/-- State of class `USB_Device` after `__init__` ran: the base-class
attributes (`resource_name`, `parts`, `Protocol`) and the USB attributes.
`none` in an `Option` field means the attribute is either unassigned
(`SN` when the `except` branch ran before `self.SN = ...`) or was set to
Python `None` by the `except ValueError` branch.  `parse_error` records
that the branch printed its error message. -/
structure USB_Device where
  resource_name : String
  parts : List String
  Protocol : String
  VendorID : Option Int
  ProductID : Option Int
  SN : Option String
  InterfaceID : Option Int
  parse_error : Bool
deriving DecidableEq

/-- Constructor `USB_Device.__init__(resource_name)` (which first runs
`Device.__init__`): splits on `"::"`, takes `parts[0]` as the protocol,
then inside `try` parses `int(parts[1])`, `int(parts[2])`, assigns
`SN = parts[3]`, and `InterfaceID = int(parts[4]) if len(parts) == 6
else 0`.  A `ValueError` from any `int` is caught and sets the three
numeric attributes to `None`; an `IndexError` from a missing token is
not caught and propagates (`Except.error PyErr.indexError`). -/
def USB_Device.make (resource_name : String) : Except PyErr USB_Device :=
  let parts := pySplitCC resource_name
  let protocol := parts.headD ""
  let failed : USB_Device :=
    { resource_name := resource_name, parts := parts, Protocol := protocol,
      VendorID := none, ProductID := none, SN := none, InterfaceID := none,
      parse_error := true }
  match parts[1]? with
  | none => Except.error PyErr.indexError
  | some p1 =>
    match pyInt p1 with
    | none => Except.ok failed
    | some vendor =>
      match parts[2]? with
      | none => Except.error PyErr.indexError
      | some p2 =>
        match pyInt p2 with
        | none => Except.ok failed
        | some product =>
          match parts[3]? with
          | none => Except.error PyErr.indexError
          | some sn =>
            if parts.length = 6 then
              match pyInt (parts.getD 4 "") with
              | none => Except.ok { failed with SN := some sn }
              | some iface =>
                Except.ok { resource_name := resource_name, parts := parts,
                            Protocol := protocol, VendorID := some vendor,
                            ProductID := some product, SN := some sn,
                            InterfaceID := some iface, parse_error := false }
            else
              Except.ok { resource_name := resource_name, parts := parts,
                          Protocol := protocol, VendorID := some vendor,
                          ProductID := some product, SN := some sn,
                          InterfaceID := some (0 : Int), parse_error := false }

/-- Tuple hashed by `USB_Device.__hash__`:
`hash((self.Protocol, self.VendorID, self.ProductID, self.SN,
self.InterfaceID))`. -/
def USB_Device.hash_tuple (d : USB_Device) :
    String × Option Int × Option Int × Option String × Option Int :=
  (d.Protocol, d.VendorID, d.ProductID, d.SN, d.InterfaceID)

/-- Injective-enough code of a string, used by the model hash. -/
def strCode (s : String) : Nat :=
  s.toList.foldl (fun a c => a * 1114112 + c.toNat + 1) 7

/-- Code of an optional value (`0` for Python `None`). -/
def optCode {α : Type} (f : α → Nat) : Option α → Nat
  | none => 0
  | some x => f x + 1

/-- Code of an integer as a natural number. -/
def intCode : Int → Nat
  | Int.ofNat n => 2 * n
  | Int.negSucc n => 2 * n + 1

/-- Model of `USB_Device.__hash__`: CPython's `hash` of the tuple
`(Protocol, VendorID, ProductID, SN, InterfaceID)` is a deterministic
pure function of exactly that tuple; which function it is does not
matter for the claims, so it is modelled by this concrete combination
of `hash_tuple`'s components. -/
def usb_hash (d : USB_Device) : Nat :=
  ((((strCode d.hash_tuple.1) * 1000003 + optCode intCode d.hash_tuple.2.1) * 1000003 +
      optCode intCode d.hash_tuple.2.2.1) * 1000003 +
      optCode strCode d.hash_tuple.2.2.2.1) * 1000003 +
    optCode intCode d.hash_tuple.2.2.2.2

/-- A Python object reference: the device value together with the
identity (`id`) of the allocation.  Two separately constructed devices
have distinct `addr`. -/
structure PyRef where
  dev : USB_Device
  addr : Nat
deriving DecidableEq

/-- Model of `ref1 == ref2` on `USB_Device` objects: the `__eq__` method
is commented out in the source (src/Function_gen.py lines 67-74), so
Python falls back to `object.__eq__`, which is identity comparison. -/
def py_eq (a b : PyRef) : Bool :=
  a.addr == b.addr

/-- The transport handle behind `VISA_Connection` (a `pyvisa` resource):
whether its session has been closed, the list of transport method calls
attempted on it (the command strings passed to `write`/`query`), and the
response string its `query` returns while open. -/
structure PyInstr where
  closed : Bool
  calls : List String
  resp : String
deriving DecidableEq

/-- State of `VISA_Connection`: the `instrument` attribute, `none` while
`__enter__` has not run (`self.instrument = None` in `__init__`). -/
structure VISA_Connection where
  instrument : Option PyInstr
deriving DecidableEq

/-- Constructor `VISA_Connection.__init__`: `self.instrument = None`. -/
def VISA_Connection.mkClosed : VISA_Connection :=
  { instrument := none }

/-- A successfully entered scope: `__enter__` assigned the opened
transport handle to `self.instrument`. -/
def VISA_Connection.afterOpen (i : PyInstr) : VISA_Connection :=
  { instrument := some i }

/-- Method `VISA_Connection.__exit__`: calls `self.instrument.close()`
(closing the session) but never assigns `self.instrument = None`, so the
attribute keeps referencing the now-closed handle. -/
def VISA_Connection.exit (c : VISA_Connection) : VISA_Connection :=
  { instrument := c.instrument.map (fun i => { i with closed := true }) }

/-- Method `VISA_Connection.write(msg)`: raises
`ValueError("Instrument is not connected.")` when `self.instrument` is
`None` (falsy); otherwise calls `self.instrument.write(msg)` — a
transport call, recorded in `calls`, which raises the invalid-session
error when the handle was closed.  The updated connection is returned
beside the outcome so the attempted call stays observable. -/
def VISA_Connection.write (c : VISA_Connection) (msg : String) :
    VISA_Connection × Except PyErr Unit :=
  match c.instrument with
  | none => (c, Except.error (PyErr.valueError "Instrument is not connected."))
  | some i =>
    let i2 := { i with calls := i.calls ++ [msg] }
    if i.closed then ({ instrument := some i2 }, Except.error PyErr.invalidSession)
    else ({ instrument := some i2 }, Except.ok ())

/-- Method `VISA_Connection.query(msg)`: same guard as `write`; on an
open handle it forwards `msg` to the transport and returns
`str(self.instrument.query(msg))` — the raw response, with no trimming
(only the debug log applies `.strip()`). -/
def VISA_Connection.query (c : VISA_Connection) (msg : String) :
    VISA_Connection × Except PyErr String :=
  match c.instrument with
  | none => (c, Except.error (PyErr.valueError "Instrument is not connected."))
  | some i =>
    let i2 := { i with calls := i.calls ++ [msg] }
    if i.closed then ({ instrument := some i2 }, Except.error PyErr.invalidSession)
    else ({ instrument := some i2 }, Except.ok i.resp)

end Fgen

namespace MC

/-! Embedding of `src/melody_converter.py` (its own `Function_Gen` class
and the melody sequencer). -/

/-- The pitch-class dictionary `notes` of `note_name_to_midi`. -/
def notes : List (String × Int) :=
  [("C", 0), ("C#", 1), ("Db", 1), ("D", 2), ("D#", 3), ("Eb", 3), ("E", 4),
   ("F", 5), ("F#", 6), ("Gb", 6), ("G", 7), ("G#", 8), ("Ab", 8), ("A", 9),
   ("A#", 10), ("Bb", 10), ("B", 11)]

/-- Function `note_name_to_midi(note_name)`: `note = note_name[:-1]`,
`octave = int(note_name[-1])`, `midi = 12 * (octave + 1) + notes[note]`.
Raised errors, in the order the statements run: `IndexError` for
`note_name[-1]` on the empty string, `ValueError` when the last
character is not a digit, `KeyError` when `note` is not in the
dictionary. -/
def note_name_to_midi (note_name : String) : Except PyErr Int :=
  let cs := note_name.toList
  let note := String.mk cs.dropLast
  match cs.getLast? with
  | none => Except.error PyErr.indexError
  | some c =>
    match pyInt (String.mk [c]) with
    | none => Except.error (PyErr.valueError "invalid literal for int")
    | some octave =>
      match notes.lookup note with
      | none => Except.error (PyErr.keyError note)
      | some pc => Except.ok (12 * (octave + 1) + pc)

/-- The real-valued equal-temperament frequency
`2 ** ((midi_note - 69) / 12) * 440` computed inside
`midi_note_to_frequency` (floating point in the source, modelled over
the reals). -/
noncomputable def real_frequency (midi_note : Int) : Real :=
  (2 : Real) ^ (((midi_note : Real) - 69) / 12) * 440

/-- Function `midi_note_to_frequency(midi_note)`: the source computes
the float frequency and returns `int(frequency)`.  The value is always
positive, so Python's truncation toward zero is the floor. -/
noncomputable def midi_note_to_frequency (midi_note : Int) : Int :=
  Int.floor (real_frequency midi_note)

/-- SCPI command written by the `Function_Gen` class of
melody_converter.py: `sourFreq f` is the raw write `f"SOUR1:FREQ {freq}"`
in `play_tone`, `outp1 true`/`outp1 false` is `f"OUTP1 {outp_msg}"`
(`"OUTP1 ON"` / `"OUTP1 OFF"`) in `_set_outp`. -/
inductive Cmd where
  | sourFreq : Int → Cmd
  | outp1 : Bool → Cmd
deriving DecidableEq

/-- Observable event of the sequencer: a command written to the
connection, a `time.sleep(duration)` (seconds) inside `play_tone`, or an
`sd.sleep(int(duration * 1000))` (milliseconds) for a pause line. -/
inductive Ev where
  | write : Cmd → Ev
  | sleepSec : Rat → Ev
  | sleepMs : Int → Ev
deriving DecidableEq

/-- State of melody_converter's `Function_Gen`: the `output` attribute
and the trace of events.  (Its `freq` attribute is declared but never
assigned or read, so it is not part of the state.) -/
structure FG where
  output : Bool
  trace : List Ev
deriving DecidableEq

/-- A `self.visa.write(...)` call on the open connection. -/
def FG.send (g : FG) (c : Cmd) : FG :=
  { g with trace := g.trace ++ [Ev.write c] }

/-- Method `Function_Gen._set_outp(output)` (melody_converter.py): this
class has no soft path — it always writes `f"OUTP1 {outp_msg}"` and sets
`self.output = output`. -/
def FG.set_outp (g : FG) (output : Bool) : FG :=
  { g.send (Cmd.outp1 output) with output := output }

/-- Constructor `Function_Gen.__init__(visa_instance)`
(melody_converter.py): `self.output = False` then `self._set_outp(False)`
— one hard `OUTP1 OFF` write. -/
def FG.init : FG :=
  FG.set_outp { output := false, trace := [] } false

/-- Method `Function_Gen.play_tone(freq, duration, stop, wait)`
(melody_converter.py): writes `f"SOUR1:FREQ {freq}"`, calls
`self._set_outp(True)`, and if `wait` sleeps for `duration` and then, if
`stop`, calls `self._set_outp(False)`. -/
def FG.play_tone (g : FG) (freq : Int) (duration : Rat) (stop wait : Bool) : FG :=
  let g := g.send (Cmd.sourFreq freq)
  let g := g.set_outp true
  if wait then
    let g := { g with trace := g.trace ++ [Ev.sleepSec duration] }
    if stop then g.set_outp false else g
  else g

/-- One iteration of the `for line in f` loop of
`play_file_on_function_gen`: strip the line, skip it when empty, split
on `":"`, parse `duration = float(parts[1])` (`IndexError` when there is
no second field, `ValueError` when it is not a float literal); a line
whose first field starts with `"P"` runs `sd.sleep(int(duration * 1000))`,
any other line resolves the note name and calls
`play_tone(freq, duration, stop=False)` (with `wait` defaulting to
`True`).  Parse errors are not caught — they propagate. -/
noncomputable def process_line (g : FG) (line : String) : Except PyErr FG :=
  let l := stripChars line.toList
  if l.isEmpty then Except.ok g
  else
    let parts := split1 ':' l
    let note_or_pause := parts.headD []
    match parts[1]? with
    | none => Except.error PyErr.indexError
    | some p1 =>
      match pyFloat (String.mk p1) with
      | none => Except.error (PyErr.valueError "could not convert string to float")
      | some duration =>
        if startsWithP note_or_pause then
          Except.ok { g with trace := g.trace ++ [Ev.sleepMs (pyTrunc (duration * 1000))] }
        else
          match note_name_to_midi (String.mk note_or_pause) with
          | Except.error e => Except.error e
          | Except.ok midi =>
            Except.ok (g.play_tone (midi_note_to_frequency midi) duration false true)

/-- The whole `for line in f` loop: the first uncaught exception aborts
the remaining lines. -/
noncomputable def process_lines (g : FG) : List String → Except PyErr FG
  | [] => Except.ok g
  | l :: ls =>
    match process_line g l with
    | Except.error e => Except.error e
    | Except.ok g2 => process_lines g2 ls

/-- Core of `play_file_on_function_gen(filename)` once the connection is
open, applied to the file's lines: construct `Function_Gen` (one hard
`OUTP1 OFF`), run the loop, and afterwards run
`function_generator._set_outp(False)`.  When a line raises, the
exception propagates and the final `_set_outp(False)` never runs. -/
noncomputable def play_file_core (lines : List String) : Except PyErr FG :=
  match process_lines FG.init lines with
  | Except.error e => Except.error e
  | Except.ok g => Except.ok (g.set_outp false)

/-- A well-formed melody-file line, as the sequencer interprets it. -/
inductive Entry where
  | blank : Entry
  | pause : Rat → Entry
  | tone : Int → Rat → Entry
deriving DecidableEq

/-- Interpretation of one line as an `Entry`: `none` when the line would
raise (missing/invalid duration, unresolvable note name). `tone` stores
the MIDI note resolved by `note_name_to_midi`. -/
def line_entry (line : String) : Option Entry :=
  let l := stripChars line.toList
  if l.isEmpty then some Entry.blank
  else
    let parts := split1 ':' l
    let note_or_pause := parts.headD []
    match parts[1]? with
    | none => none
    | some p1 =>
      match pyFloat (String.mk p1) with
      | none => none
      | some duration =>
        if startsWithP note_or_pause then
          some (Entry.pause duration)
        else
          match note_name_to_midi (String.mk note_or_pause) with
          | Except.error _ => none
          | Except.ok midi => some (Entry.tone midi duration)

/-- Events one entry contributes to the trace: nothing for a blank line,
a millisecond sleep for a pause, and — for a tone — the frequency write,
`OUTP1 ON`, and the seconds sleep of
`play_tone(freq, duration, stop=False, wait=True)`. -/
noncomputable def entry_events (e : Entry) : List Ev :=
  match e with
  | Entry.blank => []
  | Entry.pause d => [Ev.sleepMs (pyTrunc (d * 1000))]
  | Entry.tone m d =>
    [Ev.write (Cmd.sourFreq (midi_note_to_frequency m)),
     Ev.write (Cmd.outp1 true), Ev.sleepSec d]

/-- Output flag after one entry: a tone leaves the output enabled, a
pause or blank line leaves it unchanged. -/
def entry_output (e : Entry) (o : Bool) : Bool :=
  match e with
  | Entry.tone _ _ => true
  | _ => o

/-- Effect of one well-formed entry on the sequencer state. -/
noncomputable def apply_entry (g : FG) (e : Entry) : FG :=
  { output := entry_output e g.output, trace := g.trace ++ entry_events e }

end MC

/-! Claim C10: frame effect of the configure operations. -/

/-- C10 (confirmed): `configure_vpp`, `configure_offset` and
`configure_pulse_width` each issue exactly one transport write and leave
every tracked attribute (`freq`, `volt`, `width`, `offset`, `output`)
unchanged; `configure_freq` issues exactly one write and updates only
`freq`. -/
theorem Fgen.configure_frame_effect (g : Fgen.FG) (v w o : Rat) (f : Int) :
    ((g.configure_vpp v).trace = g.trace ++ [Fgen.Ev.write (Fgen.Cmd.volt v)] ∧
      (g.configure_vpp v).freq = g.freq ∧ (g.configure_vpp v).volt = g.volt ∧
      (g.configure_vpp v).width = g.width ∧ (g.configure_vpp v).offset = g.offset ∧
      (g.configure_vpp v).output = g.output) ∧
    ((g.configure_offset o).trace = g.trace ++ [Fgen.Ev.write (Fgen.Cmd.voltOffs o)] ∧
      (g.configure_offset o).freq = g.freq ∧ (g.configure_offset o).volt = g.volt ∧
      (g.configure_offset o).width = g.width ∧ (g.configure_offset o).offset = g.offset ∧
      (g.configure_offset o).output = g.output) ∧
    ((g.configure_pulse_width w).trace = g.trace ++ [Fgen.Ev.write (Fgen.Cmd.pulsWidt w)] ∧
      (g.configure_pulse_width w).freq = g.freq ∧ (g.configure_pulse_width w).volt = g.volt ∧
      (g.configure_pulse_width w).width = g.width ∧ (g.configure_pulse_width w).offset = g.offset ∧
      (g.configure_pulse_width w).output = g.output) ∧
    ((g.configure_freq f).trace = g.trace ++ [Fgen.Ev.write (Fgen.Cmd.sourFreq f)] ∧
      (g.configure_freq f).freq = f ∧ (g.configure_freq f).volt = g.volt ∧
      (g.configure_freq f).width = g.width ∧ (g.configure_freq f).offset = g.offset ∧
      (g.configure_freq f).output = g.output) := by
  refine ⟨⟨rfl, rfl, rfl, rfl, rfl, rfl⟩, ⟨rfl, rfl, rfl, rfl, rfl, rfl⟩,
    ⟨rfl, rfl, rfl, rfl, rfl, rfl⟩, ⟨rfl, rfl, rfl, rfl, rfl, rfl⟩⟩

/-! Claim C1: soft off followed by soft on. -/

/-- A concrete controller state with configured frequency 440 and an
empty trace (so every traced event was produced by the calls under
test). -/
def Fgen.exampleFG : Fgen.FG :=
  { freq := 440, volt := mkRat 23 10, width := mkRat 186 1000000, offset := mkRat 115 100,
    output := true, trace := [] }

/-- C1 counterexample: after `_set_outp(False, soft=True)` then
`_set_outp(True, soft=True)` the tracked frequency is restored to 440,
but an `OUTP1` relay command (`OUTP1 ON`) was written to the transport
during the calls — the claim that no `OUTP1` command is written is
false. -/
theorem Fgen.soft_toggle_writes_outp1_counter :
    ((Fgen.exampleFG.set_outp false true).set_outp true true).freq = 440 ∧
    Fgen.Ev.write (Fgen.Cmd.outp1 true) ∈
      ((Fgen.exampleFG.set_outp false true).set_outp true true).trace := by
  decide

/-- C1 (amended): soft off followed by soft on restores the tracked
frequency exactly, writes `SOUR1:FREQ 1` on the way down and
`SOUR1:FREQ f` on the way up, and never writes `OUTP1 OFF` — but each
soft call does write `OUTP1 ON`, so the relay is commanded (redundantly
on) rather than left untouched. -/
theorem Fgen.soft_off_on_restores_freq (g : Fgen.FG) :
    ((g.set_outp false true).set_outp true true).freq = g.freq ∧
    ((g.set_outp false true).set_outp true true).trace =
      g.trace ++ [Fgen.Ev.write (Fgen.Cmd.sourFreq 1), Fgen.Ev.write (Fgen.Cmd.outp1 true),
                  Fgen.Ev.write (Fgen.Cmd.sourFreq g.freq), Fgen.Ev.write (Fgen.Cmd.outp1 true)] ∧
    Fgen.Ev.write (Fgen.Cmd.outp1 false) ∉
      ([Fgen.Ev.write (Fgen.Cmd.sourFreq 1), Fgen.Ev.write (Fgen.Cmd.outp1 true),
        Fgen.Ev.write (Fgen.Cmd.sourFreq g.freq), Fgen.Ev.write (Fgen.Cmd.outp1 true)] :
        List Fgen.Ev) := by
  refine ⟨rfl, ?_, ?_⟩
  · simp [Fgen.FG.set_outp, Fgen.FG.send]
  · simp

/-! Claim C3: write order during construction. -/

/-- C3 counterexample: constructing the controller with the example
parameters and instrument response `"1000"` produces the write order
hard off, frequency, amplitude, pulse width, offset, query — not the
claimed order hard off, amplitude, pulse width, offset, frequency,
query. -/
theorem Fgen.init_order_counter :
    Fgen.FG.init (mkRat 23 10) (mkRat 115 100) (mkRat 186 1000000) "1000" = Except.ok
      { freq := pyTrunc (mkRat 1000 1), volt := mkRat 23 10, width := mkRat 186 1000000, offset := mkRat 115 100,
        output := false,
        trace := [Fgen.Ev.write (Fgen.Cmd.outp1 false),
                  Fgen.Ev.write (Fgen.Cmd.sourFreq 1000),
                  Fgen.Ev.write (Fgen.Cmd.volt (mkRat 23 10)),
                  Fgen.Ev.write (Fgen.Cmd.pulsWidt (mkRat 186 1000000)),
                  Fgen.Ev.write (Fgen.Cmd.voltOffs (mkRat 115 100)),
                  Fgen.Ev.freqQuery "1000"] } ∧
    ([Fgen.Ev.write (Fgen.Cmd.outp1 false),
      Fgen.Ev.write (Fgen.Cmd.sourFreq 1000),
      Fgen.Ev.write (Fgen.Cmd.volt (mkRat 23 10)),
      Fgen.Ev.write (Fgen.Cmd.pulsWidt (mkRat 186 1000000)),
      Fgen.Ev.write (Fgen.Cmd.voltOffs (mkRat 115 100)),
      Fgen.Ev.freqQuery "1000"] : List Fgen.Ev) ≠
    [Fgen.Ev.write (Fgen.Cmd.outp1 false),
     Fgen.Ev.write (Fgen.Cmd.volt (mkRat 23 10)),
     Fgen.Ev.write (Fgen.Cmd.pulsWidt (mkRat 186 1000000)),
     Fgen.Ev.write (Fgen.Cmd.voltOffs (mkRat 115 100)),
     Fgen.Ev.write (Fgen.Cmd.sourFreq 1000),
     Fgen.Ev.freqQuery "1000"] := by
  constructor
  · simp [Fgen.FG.init, Fgen.FG.set_outp, Fgen.FG.send, Fgen.FG.configure_freq,
      Fgen.FG.configure_vpp, Fgen.FG.configure_pulse_width, Fgen.FG.configure_offset]
    decide
  · decide

/-- C3 (amended): construction first writes the hard `OUTP1 OFF`, then
the default frequency (`SOUR1:FREQ 1000`), then amplitude, pulse width
and offset (one write each), and finally queries `SOUR1:FREQ?`, storing
the truncated numeric response as the committed frequency. -/
theorem Fgen.init_trace_amended (vpp offset pulse_width : Rat) (resp : String) (q : Rat)
    (h : pyFloat resp = some q) :
    Fgen.FG.init vpp offset pulse_width resp = Except.ok
      { freq := pyTrunc q, volt := vpp, width := pulse_width, offset := offset,
        output := false,
        trace := [Fgen.Ev.write (Fgen.Cmd.outp1 false),
                  Fgen.Ev.write (Fgen.Cmd.sourFreq 1000),
                  Fgen.Ev.write (Fgen.Cmd.volt vpp),
                  Fgen.Ev.write (Fgen.Cmd.pulsWidt pulse_width),
                  Fgen.Ev.write (Fgen.Cmd.voltOffs offset),
                  Fgen.Ev.freqQuery resp] } := by
  simp [Fgen.FG.init, Fgen.FG.set_outp, Fgen.FG.send, Fgen.FG.configure_freq,
    Fgen.FG.configure_vpp, Fgen.FG.configure_pulse_width, Fgen.FG.configure_offset, h]

/-- C3 amended witness: the amended order at the concrete example
input. -/
theorem Fgen.init_trace_amended_witness :
    pyFloat "1000" = some (mkRat 1000 1) ∧
    Fgen.FG.init (mkRat 23 10) (mkRat 115 100) (mkRat 186 1000000) "1000" = Except.ok
      { freq := pyTrunc (mkRat 1000 1), volt := mkRat 23 10, width := mkRat 186 1000000, offset := mkRat 115 100,
        output := false,
        trace := [Fgen.Ev.write (Fgen.Cmd.outp1 false),
                  Fgen.Ev.write (Fgen.Cmd.sourFreq 1000),
                  Fgen.Ev.write (Fgen.Cmd.volt (mkRat 23 10)),
                  Fgen.Ev.write (Fgen.Cmd.pulsWidt (mkRat 186 1000000)),
                  Fgen.Ev.write (Fgen.Cmd.voltOffs (mkRat 115 100)),
                  Fgen.Ev.freqQuery "1000"] } :=
  ⟨by decide, Fgen.init_trace_amended (mkRat 23 10) (mkRat 115 100) (mkRat 186 1000000) "1000" (mkRat 1000 1) (by decide)⟩

/-! Claim C6: write/query on a connection that is not open. -/

/-- A connection whose scope has been exited: the handle is closed but
`instrument` still references it. -/
def Fgen.closedConn : Fgen.VISA_Connection :=
  (Fgen.VISA_Connection.afterOpen { closed := false, calls := [], resp := "RIGOL" }).exit

/-- C6 counterexample: on an already-closed connection, `write` does not
fail with the not-connected `ValueError` — the `if not self.instrument`
guard sees the still-assigned (closed) handle — and a transport call is
attempted (it appears in the handle's call list). -/
theorem Fgen.write_after_close_counter :
    (Fgen.closedConn.write "OUTP1 OFF").2 ≠
      Except.error (PyErr.valueError "Instrument is not connected.") ∧
    (Fgen.closedConn.write "OUTP1 OFF").1 =
      { instrument := some { closed := true, calls := ["OUTP1 OFF"], resp := "RIGOL" } } := by
  decide

/-- C6 (amended): on a never-opened connection both `write` and `query`
raise `ValueError("Instrument is not connected.")` and perform no
transport call (the connection is returned unchanged, with no handle to
call into); on a connection whose scope was exited, the guard does not
fire: the command is forwarded to the closed handle (a transport call)
and the transport's invalid-session error is raised instead. -/
theorem Fgen.not_connected_guard_amended (msg : String) (i : Fgen.PyInstr) :
    Fgen.VISA_Connection.mkClosed.write msg =
      (Fgen.VISA_Connection.mkClosed,
        Except.error (PyErr.valueError "Instrument is not connected.")) ∧
    Fgen.VISA_Connection.mkClosed.query msg =
      (Fgen.VISA_Connection.mkClosed,
        Except.error (PyErr.valueError "Instrument is not connected.")) ∧
    (Fgen.VISA_Connection.afterOpen i).exit.write msg =
      ({ instrument := some { closed := true, calls := i.calls ++ [msg], resp := i.resp } },
        Except.error PyErr.invalidSession) ∧
    (Fgen.VISA_Connection.afterOpen i).exit.query msg =
      ({ instrument := some { closed := true, calls := i.calls ++ [msg], resp := i.resp } },
        Except.error PyErr.invalidSession) := by
  refine ⟨rfl, rfl, ?_, ?_⟩ <;>
    simp [Fgen.VISA_Connection.write, Fgen.VISA_Connection.query,
      Fgen.VISA_Connection.exit, Fgen.VISA_Connection.afterOpen]

/-! Claim C8: query on an open connection. -/

/-- An open connection whose instrument will answer with a
newline-terminated response. -/
def Fgen.openConnNl : Fgen.VISA_Connection :=
  Fgen.VISA_Connection.afterOpen { closed := false, calls := [], resp := "440.0\n" }

/-- C8 counterexample: `query` forwards the command but returns the raw
response `"440.0\n"`; the trailing-whitespace-trimmed response would be
`"440.0"`, which is not what is returned — only the debug log is
stripped. -/
theorem Fgen.query_untrimmed_counter :
    (Fgen.openConnNl.query "SOUR1:FREQ?").2 = Except.ok "440.0\n" ∧
    pyStrip "440.0\n" = "440.0" ∧
    (Fgen.openConnNl.query "SOUR1:FREQ?").2 ≠ Except.ok "440.0" := by
  decide

/-- C8 (amended): `query` on an open connection forwards the command to
the transport (it is appended to the handle's call list) and returns the
response string unchanged — untrimmed. -/
theorem Fgen.query_returns_raw (i : Fgen.PyInstr) (msg : String) (h : i.closed = false) :
    (Fgen.VISA_Connection.afterOpen i).query msg =
      ({ instrument := some { i with calls := i.calls ++ [msg] } }, Except.ok i.resp) := by
  simp [Fgen.VISA_Connection.query, Fgen.VISA_Connection.afterOpen, h]

/-- C8 amended witness: the raw (newline-terminated) response is
returned at the concrete input. -/
theorem Fgen.query_returns_raw_witness :
    ({ closed := false, calls := [], resp := "440.0\n" } : Fgen.PyInstr).closed = false ∧
    (Fgen.VISA_Connection.afterOpen { closed := false, calls := [], resp := "440.0\n" }).query
        "SOUR1:FREQ?" =
      ({ instrument := some { closed := false, calls := ["SOUR1:FREQ?"], resp := "440.0\n" } },
        Except.ok "440.0\n") :=
  ⟨rfl, Fgen.query_returns_raw { closed := false, calls := [], resp := "440.0\n" } "SOUR1:FREQ?" rfl⟩

/-! Claim C4: malformed numeric fields in a USB resource string. -/

/-- C4 (confirmed): for every resource string with at least 4
`"::"`-separated tokens in which the vendor-ID token, the product-ID
token old, or (when there are exactly 6 tokens) the interface-ID token
fails to parse as a base-10 integer, the constructor does not raise: it
returns a device whose numeric fields are all absent (`None`) with the
parse error reported. -/
theorem Fgen.usb_parse_error_contained (s : String)
    (hlen : 4 ≤ (pySplitCC s).length)
    (hbad : pyInt ((pySplitCC s).getD 1 "") = none ∨
            pyInt ((pySplitCC s).getD 2 "") = none ∨
            ((pySplitCC s).length = 6 ∧ pyInt ((pySplitCC s).getD 4 "") = none)) :
    ∃ d : Fgen.USB_Device, Fgen.USB_Device.make s = Except.ok d ∧
      d.VendorID = none ∧ d.ProductID = none ∧ d.InterfaceID = none ∧
      d.parse_error = true := by
  have h1 : (pySplitCC s)[1]? = some ((pySplitCC s).getD 1 "") := by
    have hl : 1 < (pySplitCC s).length := by omega
    simp [List.getD_eq_getElem?_getD, List.getElem?_eq_getElem hl]
  have h2 : (pySplitCC s)[2]? = some ((pySplitCC s).getD 2 "") := by
    have hl : 2 < (pySplitCC s).length := by omega
    simp [List.getD_eq_getElem?_getD, List.getElem?_eq_getElem hl]
  have h3 : (pySplitCC s)[3]? = some ((pySplitCC s).getD 3 "") := by
    have hl : 3 < (pySplitCC s).length := by omega
    simp [List.getD_eq_getElem?_getD, List.getElem?_eq_getElem hl]
  simp only [Fgen.USB_Device.make, h1, h2, h3]
  rcases hbad with hb | hb | hb
  · rw [hb]
    exact ⟨_, rfl, rfl, rfl, rfl, rfl⟩
  · cases hv1 : pyInt ((pySplitCC s).getD 1 "") with
    | none => exact ⟨_, rfl, rfl, rfl, rfl, rfl⟩
    | some v1 =>
      rw [hb]
      exact ⟨_, rfl, rfl, rfl, rfl, rfl⟩
  · cases hv1 : pyInt ((pySplitCC s).getD 1 "") with
    | none => exact ⟨_, rfl, rfl, rfl, rfl, rfl⟩
    | some v1 =>
      cases hv2 : pyInt ((pySplitCC s).getD 2 "") with
      | none => exact ⟨_, rfl, rfl, rfl, rfl, rfl⟩
      | some v2 =>
        have hlt : 4 < (pySplitCC s).length := by omega
        have h4 : pyInt ((pySplitCC s).getD 4 "") = none := hb.2
        have hg : (pySplitCC s).getD 4 "" = (pySplitCC s)[4] := by
          simp [List.getD_eq_getElem?_getD, List.getElem?_eq_getElem hlt]
        rw [hg] at h4
        simp [hb.1, h4]

/-- C4 witness: `"USB0::abc::9479::MY52102525::INSTR"` has 5 tokens and
a non-numeric vendor-ID token, and parsing yields a device with all
numeric fields absent and the error reported. -/
theorem Fgen.usb_parse_error_contained_witness :
    4 ≤ (pySplitCC "USB0::abc::9479::MY52102525::INSTR").length ∧
    pyInt ((pySplitCC "USB0::abc::9479::MY52102525::INSTR").getD 1 "") = none ∧
    (∃ d : Fgen.USB_Device,
      Fgen.USB_Device.make "USB0::abc::9479::MY52102525::INSTR" = Except.ok d ∧
      d.VendorID = none ∧ d.ProductID = none ∧ d.InterfaceID = none ∧
      d.parse_error = true) :=
  ⟨by decide, by decide,
    Fgen.usb_parse_error_contained "USB0::abc::9479::MY52102525::INSTR" (by decide)
      (Or.inl (by decide))⟩

/-! Claim C5: equality and hash over the identity tuple. -/

/-- The parsed device of `"USB0::2391::9479::MY52102525::INSTR"`
(5 tokens, so `InterfaceID` defaults to `0`). -/
def Fgen.devA : Fgen.USB_Device :=
  { resource_name := "USB0::2391::9479::MY52102525::INSTR",
    parts := ["USB0", "2391", "9479", "MY52102525", "INSTR"],
    Protocol := "USB0", VendorID := some 2391, ProductID := some 9479,
    SN := some "MY52102525", InterfaceID := some 0, parse_error := false }

/-- The parsed device of `"USB0::2391::9479::MY52102525::0::INSTR"`
(6 tokens, explicit interface `0`): a different raw string and parts
list, but the same identity tuple as `devA`. -/
def Fgen.devB : Fgen.USB_Device :=
  { resource_name := "USB0::2391::9479::MY52102525::0::INSTR",
    parts := ["USB0", "2391", "9479", "MY52102525", "0", "INSTR"],
    Protocol := "USB0", VendorID := some 2391, ProductID := some 9479,
    SN := some "MY52102525", InterfaceID := some 0, parse_error := false }

/-- C5 counterexample: two devices parsed from different resource
strings have identical `(Protocol, VendorID, ProductID, SN, InterfaceID)`
tuples and equal hashes, yet as two distinct Python objects they do not
compare equal — `__eq__` is commented out in the source, so `==` falls
back to object identity. -/
theorem Fgen.usb_eq_identity_counter :
    Fgen.USB_Device.make "USB0::2391::9479::MY52102525::INSTR" = Except.ok Fgen.devA ∧
    Fgen.USB_Device.make "USB0::2391::9479::MY52102525::0::INSTR" = Except.ok Fgen.devB ∧
    Fgen.devA.hash_tuple = Fgen.devB.hash_tuple ∧
    Fgen.usb_hash Fgen.devA = Fgen.usb_hash Fgen.devB ∧
    Fgen.py_eq { dev := Fgen.devA, addr := 0 } { dev := Fgen.devB, addr := 1 } = false := by
  decide

/-- C5 (amended): identical identity tuples guarantee equal hashes, but
equality between two `USB_Device` objects is reference identity (the
tuple-based `__eq__` is commented out), so two distinct instances with
identical tuples do not compare equal. -/
theorem Fgen.usb_hash_tuple_amended (a b : Fgen.PyRef)
    (h : a.dev.hash_tuple = b.dev.hash_tuple) :
    Fgen.usb_hash a.dev = Fgen.usb_hash b.dev ∧
    (Fgen.py_eq a b = true ↔ a.addr = b.addr) := by
  constructor
  · unfold Fgen.usb_hash
    rw [h]
  · simp [Fgen.py_eq]

/-- C5 amended witness: the two example devices at distinct addresses —
equal tuples, equal hashes, equality iff same address. -/
theorem Fgen.usb_hash_tuple_amended_witness :
    Fgen.devA.hash_tuple = Fgen.devB.hash_tuple ∧
    (Fgen.usb_hash Fgen.devA = Fgen.usb_hash Fgen.devB ∧
      (Fgen.py_eq { dev := Fgen.devA, addr := 0 } { dev := Fgen.devB, addr := 1 } = true ↔
        (0 : Nat) = 1)) :=
  ⟨by decide,
    Fgen.usb_hash_tuple_amended { dev := Fgen.devA, addr := 0 } { dev := Fgen.devB, addr := 1 }
      (by decide)⟩

/-! Claim C2: the note-to-frequency conversion. -/

/-- At MIDI note 69 the exponent is zero, so the real-valued frequency
is exactly 440. -/
lemma MC.real_frequency_69 : MC.real_frequency 69 = 440 := by
  have h : (((69 : Int) : Real) - 69) / 12 = 0 := by norm_num
  rw [MC.real_frequency, h, Real.rpow_zero, one_mul]

/-- The octave-doubling law holds for the real-valued frequency before
truncation. -/
lemma MC.real_frequency_doubling (n : Int) :
    MC.real_frequency (n + 12) = 2 * MC.real_frequency n := by
  rw [MC.real_frequency, MC.real_frequency]
  have h : (((n + 12 : Int) : Real) - 69) / 12 = ((n : Real) - 69) / 12 + 1 := by
    push_cast
    ring
  rw [h, Real.rpow_add (by norm_num : (0 : Real) < 2), Real.rpow_one]
  ring

/-- Bounds for the real frequency of MIDI note 71
(`440 * 2 ^ (1/6) ≈ 493.88`). -/
lemma MC.real_frequency_71_bounds :
    493 ≤ MC.real_frequency 71 ∧ MC.real_frequency 71 < 494 := by
  have hexp : (((71 : Int) : Real) - 69) / 12 = (1 : Real) / 6 := by norm_num
  rw [MC.real_frequency, hexp]
  have hypos : (0 : Real) < (2 : Real) ^ ((1 : Real) / 6) :=
    Real.rpow_pos_of_pos (by norm_num) _
  have hy6 : ((2 : Real) ^ ((1 : Real) / 6)) ^ (6 : Nat) = 2 := by
    rw [← Real.rpow_natCast ((2 : Real) ^ ((1 : Real) / 6)) 6,
        ← Real.rpow_mul (by norm_num : (0 : Real) ≤ 2)]
    norm_num
  constructor
  · have h1 : (493 / 440 : Real) ≤ (2 : Real) ^ ((1 : Real) / 6) := by
      apply le_of_pow_le_pow_left₀ (by norm_num : (6 : Nat) ≠ 0) (le_of_lt hypos)
      rw [hy6]
      norm_num
    nlinarith [h1]
  · have h2 : (2 : Real) ^ ((1 : Real) / 6) < 494 / 440 := by
      apply lt_of_pow_lt_pow_left₀ 6 (by norm_num : (0 : Real) ≤ 494 / 440)
      rw [hy6]
      norm_num
    nlinarith [h2]

/-- Bounds for the real frequency of MIDI note 59
(`440 * 2 ^ (-5/6) ≈ 246.94`). -/
lemma MC.real_frequency_59_bounds :
    246 ≤ MC.real_frequency 59 ∧ MC.real_frequency 59 < 247 := by
  have hexp : (((59 : Int) : Real) - 69) / 12 = -((5 : Real) / 6) := by norm_num
  rw [MC.real_frequency, hexp, Real.rpow_neg (by norm_num : (0 : Real) ≤ 2)]
  have hypos : (0 : Real) < (2 : Real) ^ ((5 : Real) / 6) :=
    Real.rpow_pos_of_pos (by norm_num) _
  have hy6 : ((2 : Real) ^ ((5 : Real) / 6)) ^ (6 : Nat) = 32 := by
    rw [← Real.rpow_natCast ((2 : Real) ^ ((5 : Real) / 6)) 6,
        ← Real.rpow_mul (by norm_num : (0 : Real) ≤ 2)]
    norm_num
  constructor
  · have h1 : (2 : Real) ^ ((5 : Real) / 6) ≤ 440 / 246 := by
      apply le_of_pow_le_pow_left₀ (by norm_num : (6 : Nat) ≠ 0)
        (by norm_num : (0 : Real) ≤ 440 / 246)
      rw [hy6]
      norm_num
    rw [mul_comm, ← div_eq_mul_inv, le_div_iff₀ hypos]
    nlinarith [h1]
  · have h2 : (440 / 247 : Real) < (2 : Real) ^ ((5 : Real) / 6) := by
      apply lt_of_pow_lt_pow_left₀ 6 (le_of_lt hypos)
      rw [hy6]
      norm_num
    rw [mul_comm, ← div_eq_mul_inv, div_lt_iff₀ hypos]
    nlinarith [h2]

/-- The truncated frequency of MIDI note 71 is 493. -/
lemma MC.mnf_71 : MC.midi_note_to_frequency 71 = 493 := by
  have hb := MC.real_frequency_71_bounds
  rw [MC.midi_note_to_frequency, Int.floor_eq_iff]
  push_cast
  exact ⟨hb.1, by linarith [hb.2]⟩

/-- The truncated frequency of MIDI note 59 is 246. -/
lemma MC.mnf_59 : MC.midi_note_to_frequency 59 = 246 := by
  have hb := MC.real_frequency_59_bounds
  rw [MC.midi_note_to_frequency, Int.floor_eq_iff]
  push_cast
  exact ⟨hb.1, by linarith [hb.2]⟩

/-- The truncated frequency of MIDI note 69 is exactly 440. -/
lemma MC.mnf_69 : MC.midi_note_to_frequency 69 = 440 := by
  rw [MC.midi_note_to_frequency, MC.real_frequency_69,
      show (440 : Real) = ((440 : Int) : Real) by norm_num, Int.floor_intCast]

/-- C2 counterexample: the function truncates to an integer, so the
octave-doubling law fails at MIDI note 59: the code gives
`midi_note_to_frequency 71 = 493` but `2 * midi_note_to_frequency 59 =
492`. -/
theorem MC.octave_doubling_truncation_counter :
    MC.midi_note_to_frequency 71 = 493 ∧
    MC.midi_note_to_frequency 59 = 246 ∧
    MC.midi_note_to_frequency 71 ≠ 2 * MC.midi_note_to_frequency 59 := by
  refine ⟨MC.mnf_71, MC.mnf_59, ?_⟩
  rw [MC.mnf_71, MC.mnf_59]
  decide

/-- C2 (amended): the function returns the integer truncation of
`440 * 2 ^ ((n - 69) / 12)` (not the float itself); the value at MIDI
note 69 is exactly 440, and the octave-doubling law holds for the
real-valued frequency before truncation (it can fail by one after
truncation). -/
theorem MC.frequency_formula_amended :
    MC.midi_note_to_frequency 69 = 440 ∧
    (∀ n : Int, MC.real_frequency (n + 12) = 2 * MC.real_frequency n) ∧
    (∀ n : Int, MC.midi_note_to_frequency n = Int.floor (MC.real_frequency n)) :=
  ⟨MC.mnf_69, MC.real_frequency_doubling, fun _ => rfl⟩

/-! Claim C7: the melody playback loop. -/

/-- Events contributed by a list of entries, in order. -/
noncomputable def MC.entries_events : List MC.Entry → List MC.Ev
  | [] => []
  | e :: es => MC.entry_events e ++ MC.entries_events es

/-- The freshly constructed sequencer controller: output off, one hard
`OUTP1 OFF` in the trace. -/
lemma MC.init_eq :
    MC.FG.init = { output := false, trace := [MC.Ev.write (MC.Cmd.outp1 false)] } := rfl

/-- Interpretation of a whole melody file: `some` when every line is
well formed. -/
def MC.lines_entries : List String → Option (List MC.Entry)
  | [] => some []
  | l :: ls =>
    match MC.line_entry l, MC.lines_entries ls with
    | some e, some es => some (e :: es)
    | _, _ => none

/-- Processing one well-formed line is exactly the effect of its
entry. -/
lemma MC.process_line_entry_eq (g : MC.FG) (line : String) (e : MC.Entry)
    (h : MC.line_entry line = some e) :
    MC.process_line g line = Except.ok (MC.apply_entry g e) := by
  simp only [MC.line_entry, String.toList, List.headD_eq_head?_getD] at h
  simp only [MC.process_line, String.toList, List.headD_eq_head?_getD]
  cases hb : (stripChars line.data).isEmpty with
  | true =>
    rw [hb] at h
    simp only [eq_self_iff_true, if_true] at h ⊢
    simp only [Option.some.injEq] at h
    subst h
    simp [MC.apply_entry, MC.entry_events, MC.entry_output]
  | false =>
    rw [hb] at h
    simp only [Bool.false_eq_true, if_false] at h ⊢
    cases h1 : (split1 ':' (stripChars line.data))[1]? with
    | none =>
      rw [h1] at h
      simp at h
    | some p1 =>
      rw [h1] at h
      try dsimp only [] at h ⊢
      cases h2 : pyFloat (String.mk p1) with
      | none =>
        rw [h2] at h
        simp at h
      | some d =>
        rw [h2] at h
        try dsimp only [] at h ⊢
        cases hp : startsWithP ((split1 ':' (stripChars line.data)).head?.getD []) with
        | true =>
          rw [hp] at h
          simp only [eq_self_iff_true, if_true] at h ⊢
          simp only [Option.some.injEq] at h
          subst h
          simp [MC.apply_entry, MC.entry_events, MC.entry_output]
        | false =>
          rw [hp] at h
          simp only [Bool.false_eq_true, if_false] at h ⊢
          cases h3 :
              MC.note_name_to_midi
                (String.mk ((split1 ':' (stripChars line.data)).head?.getD [])) with
          | error err =>
            rw [h3] at h
            simp at h
          | ok midi =>
            rw [h3] at h
            try dsimp only [] at h ⊢
            simp only [Option.some.injEq] at h
            subst h
            simp [MC.FG.play_tone, MC.FG.set_outp, MC.FG.send, MC.apply_entry,
              MC.entry_events, MC.entry_output, List.append_assoc]

/-- Processing a list of well-formed lines folds their entries over the
state, in file order. -/
lemma MC.process_lines_entries_eq :
    ∀ (lines : List String) (es : List MC.Entry) (g : MC.FG),
      MC.lines_entries lines = some es →
      MC.process_lines g lines = Except.ok (es.foldl MC.apply_entry g) := by
  intro lines
  induction lines with
  | nil =>
    intro es g h
    simp only [MC.lines_entries, Option.some.injEq] at h
    subst h
    simp [MC.process_lines]
  | cons l ls ih =>
    intro es g h
    simp only [MC.lines_entries] at h
    cases he : MC.line_entry l with
    | none =>
      rw [he] at h
      simp at h
    | some e =>
      rw [he] at h
      cases hes : MC.lines_entries ls with
      | none =>
        rw [hes] at h
        simp at h
      | some es2 =>
        rw [hes] at h
        simp only [Option.some.injEq] at h
        subst h
        simp only [MC.process_lines]
        rw [MC.process_line_entry_eq g l e he]
        exact ih es2 (MC.apply_entry g e) hes

/-- The trace after folding entries is the starting trace followed by
the entries' events. -/
lemma MC.foldl_apply_entry_trace :
    ∀ (es : List MC.Entry) (g : MC.FG),
      (es.foldl MC.apply_entry g).trace = g.trace ++ MC.entries_events es := by
  intro es
  induction es with
  | nil =>
    intro g
    simp [MC.entries_events]
  | cons e es ih =>
    intro g
    simp only [List.foldl_cons, MC.entries_events]
    rw [ih]
    simp [MC.apply_entry, List.append_assoc]

/-- No entry ever writes `OUTP1 OFF`: tone entries write only the
frequency and `OUTP1 ON`, pauses only sleep. -/
lemma MC.outp_off_not_in_entries (es : List MC.Entry) :
    MC.Ev.write (MC.Cmd.outp1 false) ∉ MC.entries_events es := by
  induction es with
  | nil => simp [MC.entries_events]
  | cons e es ih =>
    simp only [MC.entries_events, List.mem_append]
    rintro (hmem | hmem)
    · cases e <;> simp [MC.entry_events] at hmem
    · exact ih hmem

/-- C7 (confirmed): on a melody file whose lines are all well formed,
playback iterates the entries in file order — each tone contributes its
frequency write, `OUTP1 ON` and its duration sleep (the
`play_tone(freq, duration, stop=False, wait=True)` call), each pause
contributes only its sleep — `OUTP1 OFF` is never written during the
entries (the output stays enabled between consecutive tones), and
exactly one final hard `OUTP1 OFF` follows the last entry. -/
theorem MC.play_melody_trace (lines : List String) (es : List MC.Entry)
    (h : MC.lines_entries lines = some es) :
    MC.play_file_core lines = Except.ok
      { output := false,
        trace := MC.Ev.write (MC.Cmd.outp1 false) ::
          (MC.entries_events es ++ [MC.Ev.write (MC.Cmd.outp1 false)]) } ∧
    MC.Ev.write (MC.Cmd.outp1 false) ∉ MC.entries_events es := by
  constructor
  · simp only [MC.play_file_core]
    rw [MC.process_lines_entries_eq lines es MC.FG.init h]
    have ht := MC.foldl_apply_entry_trace es
      { output := false, trace := [MC.Ev.write (MC.Cmd.outp1 false)] }
    simp [MC.FG.set_outp, MC.FG.send, MC.init_eq, ht]
  · exact MC.outp_off_not_in_entries es

/-- C7 witness: a concrete four-line melody (tone, blank, pause, tone)
parses to its entries and the theorem applies. -/
theorem MC.play_melody_trace_witness :
    (MC.lines_entries ["C4:0.5", "", "P:1.2", "E5:0.25"] =
      some [MC.Entry.tone 60 (mkRat 1 2), MC.Entry.blank, MC.Entry.pause (mkRat 6 5),
            MC.Entry.tone 76 (mkRat 1 4)]) ∧
    (MC.play_file_core ["C4:0.5", "", "P:1.2", "E5:0.25"] = Except.ok
      { output := false,
        trace := MC.Ev.write (MC.Cmd.outp1 false) ::
          (MC.entries_events
              [MC.Entry.tone 60 (mkRat 1 2), MC.Entry.blank, MC.Entry.pause (mkRat 6 5),
               MC.Entry.tone 76 (mkRat 1 4)] ++
            [MC.Ev.write (MC.Cmd.outp1 false)]) } ∧
      MC.Ev.write (MC.Cmd.outp1 false) ∉
        MC.entries_events
          [MC.Entry.tone 60 (mkRat 1 2), MC.Entry.blank, MC.Entry.pause (mkRat 6 5),
           MC.Entry.tone 76 (mkRat 1 4)]) :=
  ⟨by decide, MC.play_melody_trace ["C4:0.5", "", "P:1.2", "E5:0.25"] _ (by decide)⟩

/-! Claim C9: a malformed melody line. -/

/-- C9 counterexample: a file whose first line has an unknown note name
aborts playback with the uncaught `KeyError` — the second (well-formed)
line is never processed and no batch partially succeeds. -/
theorem MC.malformed_line_aborts_counter :
    MC.play_file_core ["H4:0.5", "C4:1.0"] = Except.error (PyErr.keyError "H") := by
  rfl

/-- C9 (amended): a parse error in a melody line is not contained — the
exception from the failing line aborts processing of every remaining
sibling line (per-entry containment holds only for USB resource-string
parsing, not for melody lines). -/
theorem MC.malformed_line_aborts (g : MC.FG) (line : String) (e : PyErr)
    (rest : List String) (h : MC.process_line g line = Except.error e) :
    MC.process_lines g (line :: rest) = Except.error e := by
  simp only [MC.process_lines]
  rw [h]

/-- C9 amended witness: the unknown note name `"H4"` raises `KeyError`
and kills the remaining well-formed line. -/
theorem MC.malformed_line_aborts_witness :
    MC.process_line MC.FG.init "H4:0.5" = Except.error (PyErr.keyError "H") ∧
    MC.process_lines MC.FG.init ["H4:0.5", "C4:1.0"] = Except.error (PyErr.keyError "H") :=
  ⟨by rfl,
    MC.malformed_line_aborts MC.FG.init "H4:0.5" (PyErr.keyError "H") ["C4:1.0"] (by rfl)⟩
